import Mathlib

/-!
Verification development for the Kentucky mugshot scraper (`scraper.py`).

The core pipeline of the program is embedded shallowly:

* `Record` mirrors the dict built by `_extract_record_data`.
* `Entry` and `Page` abstract the BeautifulSoup collaborator: an `Entry`
  records what the code reads from one candidate block (the stripped text of
  the first `h2`/`h3`/`a` element whose class matches `name|title`, the `src`
  of the first `img`, and the flattened text of the block); a `Page` records
  the two `find_all` results the code consults.
* The network collaborator `requests.get` is abstracted as a function
  `Nat → Option Page` from page number to fetched document (`none` models a
  `RequestException`, i.e. network failure or non-2xx status).
* The cache file content is passed in as a `Finset String` and the cache
  write is returned as an `Option (Finset String)`.
* Python regex searches used by `_extract_record_data` are compiled by hand
  into scanners over `List Char` with `re.search` semantics (leftmost match);
  every quantified subpattern in the source ranges over a single character
  class, so greedy/lazy matching is expressible with `takeWhile`-style
  primitives.  ASCII case folding is assumed (all patterns and inputs in the
  source are ASCII).
-/

set_option maxRecDepth 4000

namespace Scraper

/-! ### Python string primitives -/

/-- Python `str.isspace` characters relevant to `\s` in `re` (ASCII range). -/
def pyIsSpace (c : Char) : Bool :=
  c = ' ' || c = '\t' || c = '\n' || c = '\r' || c = Char.ofNat 11 || c = Char.ofNat 12

/-- Python `str.lower`, ASCII fragment (`Char.toLower` lowercases `A`–`Z`). -/
def pyLower (s : String) : String :=
  String.mk (s.toList.map Char.toLower)

/-- Strip leading and trailing whitespace, as Python `str.strip()`. -/
def pyStripList (l : List Char) : List Char :=
  ((l.dropWhile pyIsSpace).reverse.dropWhile pyIsSpace).reverse

/-- Python `str.strip()`. -/
def pyStrip (s : String) : String :=
  String.mk (pyStripList s.toList)

/-- Helper for `pyWords`: accumulate the current word (reversed). -/
def pyWordsAux : List Char → List Char → List (List Char)
  | [], cur => if cur = [] then [] else [cur.reverse]
  | c :: t, cur =>
    if pyIsSpace c then
      (if cur = [] then pyWordsAux t [] else cur.reverse :: pyWordsAux t [])
    else pyWordsAux t (c :: cur)

/-- Python `str.split()` with no argument: split on whitespace runs. -/
def pyWords (l : List Char) : List (List Char) :=
  pyWordsAux l []

/-- Python `' '.join(s.split())`: collapse internal whitespace runs. -/
def pyJoinWords (s : String) : String :=
  String.intercalate " " ((pyWords s.toList).map String.mk)

/-- Python substring test `needle in hay`. -/
def listContainsSub (needle : List Char) : List Char → Bool
  | [] => needle.isEmpty
  | c :: t => needle.isPrefixOf (c :: t) || listContainsSub needle t

/-- Python `needle in hay` on strings. -/
def containsSub (hay needle : String) : Bool :=
  listContainsSub needle.toList hay.toList

/-- Python `str.title()`, ASCII fragment: a letter is uppercased when the
previous character is not a letter, lowercased otherwise. -/
def pyTitleAux : Bool → List Char → List Char
  | _, [] => []
  | prevAlpha, c :: t =>
    if c.isAlpha then
      (if prevAlpha then c.toLower else c.toUpper) :: pyTitleAux true t
    else c :: pyTitleAux false t

/-- Python `str.title()`. -/
def pyTitle (s : String) : String :=
  String.mk (pyTitleAux false s.toList)

/-! ### Regex scanners

Each function `…At` is the hand compilation of one `re` pattern from
`_extract_record_data`, matching at the head of its input and returning the
text of capture group 1.  `reSearch` supplies `re.search`'s leftmost-match
semantics. -/

/-- Match a literal case-insensitively (a pattern under `re.I`);
returns the rest of the input. -/
def matchLitI : List Char → List Char → Option (List Char)
  | [], rest => some rest
  | _ :: _, [] => none
  | c :: cs, d :: ds => if c.toLower = d.toLower then matchLitI cs ds else none

/-- Match a literal exactly (case-sensitive pattern); returns the rest. -/
def matchLitE : List Char → List Char → Option (List Char)
  | [], rest => some rest
  | _ :: _, [] => none
  | c :: cs, d :: ds => if c = d then matchLitE cs ds else none

/-- Greedy `p+` over a character class: fails unless at least one character
matches; returns (matched run, rest). -/
def takeWhile1 (p : Char → Bool) (l : List Char) : Option (List Char × List Char) :=
  let t := l.takeWhile p
  if t = [] then none else some (t, l.dropWhile p)

/-- `re.search`: try the scanner at every position, leftmost match wins
(including the empty position at the end of the string). -/
def reSearch (m : List Char → Option (List Char)) : List Char → Option (List Char)
  | [] => m []
  | c :: t =>
    match m (c :: t) with
    | some g => some g
    | none => reSearch m t

/-- Pattern `age\s+(\d+)`, `re.I`. -/
def ageAt (l : List Char) : Option (List Char) := do
  let r ← matchLitI "age".toList l
  let (_, r) ← takeWhile1 pyIsSpace r
  let (g, _) ← takeWhile1 Char.isDigit r
  pure g

/-- Pattern `height\s+([\d'\"]+)`, `re.I`. -/
def heightAt (l : List Char) : Option (List Char) := do
  let r ← matchLitI "height".toList l
  let (_, r) ← takeWhile1 pyIsSpace r
  let (g, _) ← takeWhile1 (fun c => c.isDigit || c = '\'' || c = '"') r
  pure g

/-- Pattern `weight\s+(\d+)\s*lbs`, `re.I`. -/
def weightAt (l : List Char) : Option (List Char) := do
  let r ← matchLitI "weight".toList l
  let (_, r) ← takeWhile1 pyIsSpace r
  let (g, r) ← takeWhile1 Char.isDigit r
  let r := r.dropWhile pyIsSpace
  let _ ← matchLitI "lbs".toList r
  pure g

/-- Three letters, as `([A-Z]{3})` under `re.I`. -/
def threeAlpha : List Char → Option (List Char)
  | c1 :: c2 :: c3 :: _ =>
    if c1.isAlpha && c2.isAlpha && c3.isAlpha then some [c1, c2, c3] else none
  | _ => none

/-- Pattern `hair\s+([A-Z]{3})`, `re.I`. -/
def hairAt (l : List Char) : Option (List Char) := do
  let r ← matchLitI "hair".toList l
  let (_, r) ← takeWhile1 pyIsSpace r
  threeAlpha r

/-- Pattern `eye\s+([A-Z]{3})`, `re.I`. -/
def eyeAt (l : List Char) : Option (List Char) := do
  let r ← matchLitI "eye".toList l
  let (_, r) ← takeWhile1 pyIsSpace r
  threeAlpha r

/-- Pattern `sex\s+(Male|Female)`, case-sensitive (`case_sensitive=True`). -/
def sexAt (l : List Char) : Option (List Char) := do
  let r ← matchLitE "sex".toList l
  let (_, r) ← takeWhile1 pyIsSpace r
  match matchLitE "Male".toList r with
  | some _ => pure "Male".toList
  | none =>
    match matchLitE "Female".toList r with
    | some _ => pure "Female".toList
    | none => none

/-- Pattern `race\s+([A-Z])\s+`, `re.I`. -/
def raceAt (l : List Char) : Option (List Char) := do
  let r ← matchLitI "race".toList l
  let (_, r) ← takeWhile1 pyIsSpace r
  match r with
  | c :: rest =>
    if c.isAlpha then do
      let _ ← takeWhile1 pyIsSpace rest
      pure [c]
    else none
  | [] => none

/-- Pattern `booked\s+([\d\-]+)`, `re.I`. -/
def bookedAt (l : List Char) : Option (List Char) := do
  let r ← matchLitI "booked".toList l
  let (_, r) ← takeWhile1 pyIsSpace r
  let (g, _) ← takeWhile1 (fun c => c.isDigit || c = '-') r
  pure g

/-- Pattern `arrested by\s+([A-Z\s]+)`, `re.I` (used with `multiword=True`). -/
def arrestedAt (l : List Char) : Option (List Char) := do
  let r ← matchLitI "arrested by".toList l
  let (_, r) ← takeWhile1 pyIsSpace r
  let (g, _) ← takeWhile1 (fun c => c.isAlpha || pyIsSpace c) r
  pure g

/-- Pattern `bond[:\s]+\$?([\d,]+)`, `re.I`. -/
def bondAt (l : List Char) : Option (List Char) := do
  let r ← matchLitI "bond".toList l
  let (_, r) ← takeWhile1 (fun c => c = ':' || pyIsSpace c) r
  let r := match r with | '$' :: t => t | other => other
  let (g, _) ← takeWhile1 (fun c => c.isDigit || c = ',') r
  pure g

/-- Lazy tail of `(.+?)(?:bond|$)` under `re.I | re.DOTALL`: extend the group
one character at a time until `bond` follows or the input ends. -/
def chargesTail (acc : List Char) : List Char → List Char
  | [] => acc.reverse
  | c :: t =>
    if (matchLitI "bond".toList (c :: t)).isSome then acc.reverse
    else chargesTail (c :: acc) t

/-- Pattern `charges?[:\s]+(.+?)(?:bond|$)`, `re.I | re.DOTALL`.  When the
separator run reaches the end of the input, `[:\s]+` backtracks one character
so that the (lazy, nonempty) group can match it and `$` close the match. -/
def chargesAt (l : List Char) : Option (List Char) := do
  let r ← matchLitI "charge".toList l
  let r := match r with
    | c :: t => if c.toLower = 's' then t else c :: t
    | [] => []
  let run := r.takeWhile (fun c => c = ':' || pyIsSpace c)
  let rest := r.dropWhile (fun c => c = ':' || pyIsSpace c)
  if run = [] then none
  else
    match rest with
    | [] => if 2 ≤ run.length then some (run.drop (run.length - 1)) else none
    | c :: t => some (chargesTail [c] t)

/-- `_extract_pattern(text, pattern, case_sensitive, multiword)`: run the
search, strip the captured group, optionally collapse internal whitespace;
no match yields `''`.  The pattern and its flags are baked into `matchAt`. -/
def _extract_pattern (matchAt : List Char → Option (List Char)) (multiword : Bool)
    (text : List Char) : String :=
  match reSearch matchAt text with
  | some g =>
    let result := pyStrip (String.mk g)
    if multiword then pyJoinWords result else result
  | none => ""

/-! ### Data model -/

/-- The record dict built by `_extract_record_data`. -/
structure Record where
  county : String
  name : String
  age : String
  height : String
  weight : String
  hair_color : String
  eye_color : String
  sex : String
  race : String
  booking_date : String
  arrested_by : String
  charges : String
  bond_amount : String
  mugshot_url : String
  scraped_at : String
deriving DecidableEq

/-- One candidate block, as observed by `_extract_record_data`:
`nameText` is `name_elem.get_text(strip=True)` for the first `h2`/`h3`/`a`
element with a `name|title` class (`none` when no such element exists);
`imgSrc` is the `src` attribute of the first `img` (`none` when there is no
`img` or no `src`); `text` is `entry.get_text()`. -/
structure Entry where
  nameText : Option String
  imgSrc : Option String
  text : String
deriving DecidableEq

/-- One fetched document, as observed by `_parse_page`: the two `find_all`
results (`article`/`div` with a `mugshot|booking|arrest` class, and the
fallback `div class="post"` blocks). -/
structure Page where
  classEntries : List Entry
  postEntries : List Entry
deriving DecidableEq

/-- `generate_record_id`: `f"{name}_{booking_date}".lower().replace(' ', '_')`. -/
def generate_record_id (record : Record) : String :=
  String.mk (((record.name ++ "_" ++ record.booking_date).toList.map Char.toLower).map
    (fun c => if c = ' ' then '_' else c))

/-! ### Date parsing (`_parse_date`)

`datetime` values are embedded as `Nat` via `y * 10000 + m * 100 + d`
(midnight timestamps; the encoding is order-preserving for valid dates).
`strptime` with the four fixed formats requires: exactly three fields
separated by the format's separator, a 4-digit year, 1–2-digit month `1..12`,
1–2-digit day `1..31`, and `datetime` validation of the day against the
month length (proleptic Gregorian, year at least 1). -/

/-- All-digit string to its value. -/
def digitsVal? (l : List Char) : Option Nat :=
  if l ≠ [] && l.all Char.isDigit then
    some (l.foldl (fun n c => n * 10 + (c.toNat - '0'.toNat)) 0)
  else none

/-- Day count of a month in the proleptic Gregorian calendar. -/
def daysInMonth (y m : Nat) : Nat :=
  if m = 2 then
    if y % 4 = 0 && (y % 100 ≠ 0 || y % 400 = 0) then 29 else 28
  else if m = 4 || m = 6 || m = 9 || m = 11 then 30
  else 31

/-- Helper for `splitOnChar`, carrying the current field (reversed). -/
def splitOnCharAux (sep : Char) : List Char → List Char → List (List Char)
  | [], cur => [cur.reverse]
  | c :: t, cur =>
    if c = sep then cur.reverse :: splitOnCharAux sep t []
    else splitOnCharAux sep t (c :: cur)

/-- Split on a single-character separator, keeping empty fields — the
behaviour of Python `str.split(sep)` (and of `String.splitOn`) for the
one-character separators of the four date formats. -/
def splitOnChar (sep : Char) (l : List Char) : List (List Char) :=
  splitOnCharAux sep l []

/-- Parse one `strptime` format: `ymd = true` for `%Y sep %m sep %d`,
`false` for `%m sep %d sep %Y`. -/
def parseFormat (ymd : Bool) (sep : Char) (s : String) : Option Nat :=
  match splitOnChar sep s.toList with
  | [a, b, c] =>
    let (ys, ms, ds) := if ymd then (a, b, c) else (c, a, b)
    match digitsVal? ys, digitsVal? ms, digitsVal? ds with
    | some y, some m, some d =>
      if ys.length = 4 && 1 ≤ y &&
         ms.length ≤ 2 && 1 ≤ m && m ≤ 12 &&
         ds.length ≤ 2 && 1 ≤ d && d ≤ daysInMonth y m then
        some (y * 10000 + m * 100 + d)
      else none
    | _, _, _ => none
  | _ => none

/-- `_parse_date`: the four formats `%Y-%m-%d`, `%m/%d/%Y`, `%m-%d-%Y`,
`%Y/%m/%d`, tried in order, first success wins; empty input parses to `None`. -/
def _parse_date (date_str : String) : Option Nat :=
  if date_str = "" then none
  else
    match parseFormat true '-' date_str with
    | some d => some d
    | none =>
      match parseFormat false '/' date_str with
      | some d => some d
      | none =>
        match parseFormat false '-' date_str with
        | some d => some d
        | none => parseFormat true '/' date_str

/-! ### Record extraction (`_extract_record_data`, `_parse_page`) -/

/-- The name assigned by `_extract_record_data`: `name_elem.get_text(strip=True)`
when a `name|title` element was found, otherwise the initial `''`. -/
def entryName (entry : Entry) : String :=
  match entry.nameText with
  | some t => t
  | none => ""

/-- The mugshot URL: assigned only when `img_elem` exists and its `src` is
truthy (`if img_elem and img_elem.get('src')`). -/
def entryImg (entry : Entry) : String :=
  match entry.imgSrc with
  | some s => if s = "" then "" else s
  | none => ""

/-- `_extract_record_data(entry, county_name)`: build the record dict from one
candidate block, stamping `scraped_at` with the current time (`now`); return
`None` when the extracted name is empty. -/
def _extract_record_data (entry : Entry) (county_name : String) (now : String) :
    Option Record :=
  if entryName entry = "" then none
  else some {
    county := pyTitle county_name
    name := entryName entry
    age := _extract_pattern ageAt false entry.text.toList
    height := _extract_pattern heightAt false entry.text.toList
    weight := _extract_pattern weightAt false entry.text.toList
    hair_color := _extract_pattern hairAt false entry.text.toList
    eye_color := _extract_pattern eyeAt false entry.text.toList
    sex := _extract_pattern sexAt false entry.text.toList
    race := _extract_pattern raceAt false entry.text.toList
    booking_date := _extract_pattern bookedAt false entry.text.toList
    arrested_by := _extract_pattern arrestedAt true entry.text.toList
    charges :=
      match reSearch chargesAt entry.text.toList with
      | some g => pyStrip (String.mk g)
      | none => ""
    bond_amount := _extract_pattern bondAt false entry.text.toList
    mugshot_url := entryImg entry
    scraped_at := now }

/-- `_parse_page(soup, county_name)`: the class-matched blocks, falling back
to `div class="post"` blocks when none match; candidates whose extraction
returns `None` are skipped. -/
def _parse_page (soup : Page) (county_name now : String) : List Record :=
  let entries := if soup.classEntries = [] then soup.postEntries else soup.classEntries
  entries.filterMap (fun e => _extract_record_data e county_name now)

/-! ### Filtering (`_filter_records`) -/

/-- The date-filter `continue` condition of `_filter_records`: active only
when a bound is set; skipped when `booking_date` does not parse. -/
def dateDrop (date_from date_to : Option Nat) (record : Record) : Bool :=
  if date_from.isSome || date_to.isSome then
    match _parse_date record.booking_date with
    | some bd =>
      (match date_from with
       | some f => decide (bd < f)
       | none => false) ||
      (match date_to with
       | some t => decide (t < bd)
       | none => false)
    | none => false
  else false

/-- The keyword-filter `continue` condition: active only when
`charge_keywords` is truthy (a nonempty list) AND `record['charges']` is
truthy (nonempty); drop when no keyword occurs case-insensitively in
`charges`. -/
def kwDrop (charge_keywords : Option (List String)) (record : Record) : Bool :=
  match charge_keywords with
  | some kws =>
    if kws ≠ [] ∧ record.charges ≠ "" then
      !(kws.any fun kw => containsSub (pyLower record.charges) (pyLower kw))
    else false
  | none => false

/-- One iteration of the `_filter_records` loop body: keep the record iff no
`continue` fires, checks in source order (cache, then date, then keywords). -/
def keepRecord (cached_ids : Finset String) (date_from date_to : Option Nat)
    (charge_keywords : Option (List String)) (record : Record) : Bool :=
  if generate_record_id record ∈ cached_ids then false
  else if dateDrop date_from date_to record then false
  else if kwDrop charge_keywords record then false
  else true

/-- The `_filter_records` loop, carrying its state (the cache set it reads
and the `filtered` accumulator) explicitly: the body reads the cache and
appends to `filtered`, nothing else. -/
def _filter_records_go (date_from date_to : Option Nat)
    (charge_keywords : Option (List String)) :
    List Record → Finset String × List Record → Finset String × List Record
  | [], st => st
  | record :: rs, (cached_ids, filtered) =>
    _filter_records_go date_from date_to charge_keywords rs
      (cached_ids,
        if keepRecord cached_ids date_from date_to charge_keywords record then
          filtered ++ [record]
        else filtered)

/-- `_filter_records(records, cached_ids, date_from, date_to, charge_keywords)`. -/
def _filter_records (records : List Record) (cached_ids : Finset String)
    (date_from date_to : Option Nat) (charge_keywords : Option (List String)) :
    List Record :=
  (_filter_records_go date_from date_to charge_keywords records (cached_ids, [])).2

/-! ### The scrape loop (`scrape_county`, `scrape_all_counties`) -/

/-- The county registry: keys of `self.counties` in insertion order. -/
def counties : List String :=
  ["nelson", "jefferson", "hardin", "bullitt", "fayette", "spencer", "warren",
   "boone", "franklin"]

/-- Accumulated state of the page loop of `scrape_county`: `all_records`,
`new_record_ids`, plus the trace of page numbers requested (one
`requests.get` per entry — the loop never retries a page). -/
structure LoopResult where
  records : List Record
  new_record_ids : Finset String
  fetched : List Nat
deriving DecidableEq

/-- The `for page in range(1, max_pages + 1)` loop of `scrape_county`, by
recursion on the number of remaining iterations.  A fetch failure
(`RequestException`, modelled by `fetch page = none`) breaks; a page parsing
to zero records breaks; otherwise the page is filtered against the cache
snapshot `cached_ids` (constant for the whole run) and accumulated. -/
def scrapeLoop (fetch : Nat → Option Page) (county_name : String)
    (cached_ids : Finset String) (date_from date_to : Option Nat)
    (charge_keywords : Option (List String)) (now : String) :
    Nat → Nat → LoopResult
  | _, 0 => ⟨[], ∅, []⟩
  | page, fuel + 1 =>
    match fetch page with
    | none => ⟨[], ∅, [page]⟩
    | some soup =>
      let records := _parse_page soup county_name now
      if records = [] then ⟨[], ∅, [page]⟩
      else
        let filtered := _filter_records records cached_ids date_from date_to charge_keywords
        let rest := scrapeLoop fetch county_name cached_ids date_from date_to
          charge_keywords now (page + 1) fuel
        ⟨filtered ++ rest.records,
         (filtered.map generate_record_id).toFinset ∪ rest.new_record_ids,
         page :: rest.fetched⟩

/-- Caller-visible outcome of `scrape_county`: the returned record list, the
cache write if one happened (`save_cache` argument), and the fetch trace. -/
structure ScrapeOutcome where
  records : List Record
  save : Option (Finset String)
  fetched : List Nat
deriving DecidableEq

/-- `scrape_county(county_name, max_pages, date_from, date_to,
charge_keywords, skip_duplicates)`.  `stored_cache` is the content of the
county's cache file (what `load_cache` would return); the registry check uses
the lowercased name; the cache is written only when `skip_duplicates` holds
and the run produced at least one new fingerprint. -/
def scrape_county (fetch : Nat → Option Page) (county_name : String)
    (max_pages : Nat) (date_from date_to : Option Nat)
    (charge_keywords : Option (List String)) (skip_duplicates : Bool)
    (stored_cache : Finset String) (now : String) : ScrapeOutcome :=
  if pyLower county_name ∉ counties then ⟨[], none, []⟩
  else
    let cached_ids := if skip_duplicates then stored_cache else ∅
    let r := scrapeLoop fetch county_name cached_ids date_from date_to
      charge_keywords now 1 max_pages
    let save :=
      if skip_duplicates ∧ r.new_record_ids ≠ ∅ then
        some (cached_ids ∪ r.new_record_ids)
      else none
    ⟨r.records, save, r.fetched⟩

/-- `scrape_all_counties`: sequentially scrape every registered county (in
registry order), collecting each county's record list; `fetchOf` and
`cacheOf` give each county its fetch collaborator and cache file content.
(`save_to_csv` and the inter-source sleep are peripheral and not modelled.) -/
def scrape_all_counties (fetchOf : String → Nat → Option Page)
    (cacheOf : String → Finset String) (max_pages : Nat)
    (date_from date_to : Option Nat) (charge_keywords : Option (List String))
    (skip_duplicates : Bool) (now : String) : List (String × List Record) :=
  counties.map fun county_name =>
    (county_name,
      (scrape_county (fetchOf county_name) county_name max_pages date_from
        date_to charge_keywords skip_duplicates (cacheOf county_name) now).records)

/-! ### Helper lemmas -/

/-- Replacing the `scraped_at` stamp of a record (runs differ only in the
clock value `datetime.now()` reads). -/
def setNow (now : String) (r : Record) : Record :=
  { r with scraped_at := now }

lemma scrapeLoop_succ_none {fetch : Nat → Option Page} {page : Nat}
    (county : String) (c : Finset String) (df dt : Option Nat)
    (kws : Option (List String)) (now : String) (n : Nat)
    (hf : fetch page = none) :
    scrapeLoop fetch county c df dt kws now page (n + 1) = ⟨[], ∅, [page]⟩ := by
  simp [scrapeLoop, hf]

lemma scrapeLoop_succ_nil {fetch : Nat → Option Page} {page : Nat} {soup : Page}
    {county : String} (c : Finset String) (df dt : Option Nat)
    (kws : Option (List String)) {now : String} (n : Nat)
    (hf : fetch page = some soup) (hp : _parse_page soup county now = []) :
    scrapeLoop fetch county c df dt kws now page (n + 1) = ⟨[], ∅, [page]⟩ := by
  simp [scrapeLoop, hf, hp]

lemma scrapeLoop_succ_cons {fetch : Nat → Option Page} {page : Nat} {soup : Page}
    {county : String} (c : Finset String) (df dt : Option Nat)
    (kws : Option (List String)) {now : String} (n : Nat)
    (hf : fetch page = some soup) (hp : _parse_page soup county now ≠ []) :
    scrapeLoop fetch county c df dt kws now page (n + 1) =
      ⟨_filter_records (_parse_page soup county now) c df dt kws ++
          (scrapeLoop fetch county c df dt kws now (page + 1) n).records,
        ((_filter_records (_parse_page soup county now) c df dt kws).map
            generate_record_id).toFinset ∪
          (scrapeLoop fetch county c df dt kws now (page + 1) n).new_record_ids,
        page :: (scrapeLoop fetch county c df dt kws now (page + 1) n).fetched⟩ := by
  simp [scrapeLoop, hf, hp]

lemma extract_setNow (e : Entry) (county now1 now2 : String) :
    _extract_record_data e county now2 =
      (_extract_record_data e county now1).map (setNow now2) := by
  unfold _extract_record_data
  by_cases h : entryName e = "" <;> simp [h, setNow]

lemma parse_setNow (p : Page) (county now1 now2 : String) :
    _parse_page p county now2 = (_parse_page p county now1).map (setNow now2) := by
  unfold _parse_page
  simp only [List.map_filterMap]
  congr 1
  funext e
  exact extract_setNow e county now1 now2

lemma keep_setNow (c : Finset String) (df dt : Option Nat)
    (kws : Option (List String)) (now : String) (r : Record) :
    keepRecord c df dt kws (setNow now r) = keepRecord c df dt kws r := rfl

lemma keep_false_of_mem {c : Finset String} {df dt : Option Nat}
    {kws : Option (List String)} {r : Record}
    (h : generate_record_id r ∈ c) : keepRecord c df dt kws r = false := by
  simp [keepRecord, h]

lemma keep_mono {c c' : Finset String} {df dt : Option Nat}
    {kws : Option (List String)} {r : Record} (hsub : c ⊆ c')
    (h : keepRecord c df dt kws r = false) : keepRecord c' df dt kws r = false := by
  by_cases h1 : generate_record_id r ∈ c'
  · exact keep_false_of_mem h1
  · have h0 : generate_record_id r ∉ c := fun hm => h1 (hsub hm)
    unfold keepRecord at h ⊢
    simp only [h0, if_neg, if_false] at h
    simp only [h1, if_neg, if_false]
    exact h

lemma filter_go_fst (df dt : Option Nat) (kws : Option (List String))
    (rs : List Record) (st : Finset String × List Record) :
    (_filter_records_go df dt kws rs st).1 = st.1 := by
  induction rs generalizing st with
  | nil => rfl
  | cons r rs ih =>
    obtain ⟨c, acc⟩ := st
    simp [_filter_records_go, ih]

lemma filter_go_snd (df dt : Option Nat) (kws : Option (List String))
    (rs : List Record) (c : Finset String) (acc : List Record) :
    (_filter_records_go df dt kws rs (c, acc)).2
      = acc ++ rs.filter (keepRecord c df dt kws) := by
  induction rs generalizing acc with
  | nil => simp [_filter_records_go]
  | cons r rs ih =>
    simp only [_filter_records_go, List.filter_cons]
    by_cases h : keepRecord c df dt kws r = true
    · simp [h, ih]
    · simp only [Bool.not_eq_true] at h
      simp [h, ih]

lemma filter_eq (rs : List Record) (c : Finset String) (df dt : Option Nat)
    (kws : Option (List String)) :
    _filter_records rs c df dt kws = rs.filter (keepRecord c df dt kws) := by
  unfold _filter_records
  rw [filter_go_snd]
  simp

lemma loop_ids_spec (fetch : Nat → Option Page) (county : String)
    (c : Finset String) (df dt : Option Nat) (kws : Option (List String))
    (now : String) :
    ∀ fuel page,
      (scrapeLoop fetch county c df dt kws now page fuel).new_record_ids
        = ((scrapeLoop fetch county c df dt kws now page fuel).records.map
            generate_record_id).toFinset := by
  intro fuel
  induction fuel with
  | zero => intro page; simp [scrapeLoop]
  | succ n ih =>
    intro page
    simp only [scrapeLoop]
    cases hf : fetch page with
    | none => simp
    | some soup =>
      by_cases hp : _parse_page soup county now = []
      · simp [hp]
      · simp [hp, ih, List.toFinset_append]

lemma loop_records_join (fetch : Nat → Option Page) (county : String)
    (c : Finset String) (df dt : Option Nat) (kws : Option (List String))
    (now : String) :
    ∀ fuel page,
      (scrapeLoop fetch county c df dt kws now page fuel).records
        = ((scrapeLoop fetch county c df dt kws now page fuel).fetched.filterMap
            (fun i => (fetch i).map
              (fun p => _filter_records (_parse_page p county now) c df dt kws))).flatten := by
  intro fuel
  induction fuel with
  | zero => intro page; simp [scrapeLoop]
  | succ n ih =>
    intro page
    simp only [scrapeLoop]
    cases hf : fetch page with
    | none => simp [hf]
    | some soup =>
      by_cases hp : _parse_page soup county now = []
      · simp [hp, hf, filter_eq]
      · simp [hp, hf, ih]

lemma loop_fetched_range (fetch : Nat → Option Page) (county : String)
    (c : Finset String) (df dt : Option Nat) (kws : Option (List String))
    (now : String) :
    ∀ fuel page, ∃ k ≤ fuel,
      (scrapeLoop fetch county c df dt kws now page fuel).fetched
        = List.range' page k := by
  intro fuel
  induction fuel with
  | zero => intro page; exact ⟨0, Nat.le_refl 0, rfl⟩
  | succ n ih =>
    intro page
    simp only [scrapeLoop]
    cases hf : fetch page with
    | none => exact ⟨1, Nat.succ_le_succ (Nat.zero_le n), rfl⟩
    | some soup =>
      by_cases hp : _parse_page soup county now = []
      · refine ⟨1, Nat.succ_le_succ (Nat.zero_le n), ?_⟩
        simp [hp]
      · obtain ⟨k, hk, hfe⟩ := ih (page + 1)
        refine ⟨k + 1, Nat.succ_le_succ hk, ?_⟩
        simp [hp, List.range'_succ, hfe]

lemma loop_fetched_le {fetch : Nat → Option Page} {n : Nat}
    (county : String) (c : Finset String) (df dt : Option Nat)
    (kws : Option (List String)) (now : String) (hn : fetch n = none) :
    ∀ fuel page, page ≤ n →
      ∀ m ∈ (scrapeLoop fetch county c df dt kws now page fuel).fetched, m ≤ n := by
  intro fuel
  induction fuel with
  | zero => intro page _ m hm; simp [scrapeLoop] at hm
  | succ k ih =>
    intro page hpage m hm
    simp only [scrapeLoop] at hm
    cases hf : fetch page with
    | none =>
      rw [hf] at hm
      simp at hm
      omega
    | some soup =>
      rw [hf] at hm
      have hne : page ≠ n := by
        intro h
        rw [h, hn] at hf
        exact Option.noConfusion hf
      by_cases hp : _parse_page soup county now = []
      · simp [hp] at hm
        omega
      · simp only [hp, if_neg, if_false] at hm
        simp at hm
        rcases hm with h | h
        · omega
        · exact ih (page + 1) (by omega) m h

lemma loop_rec_mem_ids {fetch : Nat → Option Page} {county : String}
    {c : Finset String} {df dt : Option Nat} {kws : Option (List String)}
    {now : String} {fuel page : Nat} {r : Record}
    (hr : r ∈ (scrapeLoop fetch county c df dt kws now page fuel).records) :
    generate_record_id r ∈
      (scrapeLoop fetch county c df dt kws now page fuel).new_record_ids := by
  rw [loop_ids_spec]
  rw [List.mem_toFinset]
  exact List.mem_map_of_mem generate_record_id hr

lemma loop_run2_nil (fetch : Nat → Option Page) (county : String)
    (df dt : Option Nat) (kws : Option (List String)) (now1 now2 : String)
    {c c' : Finset String} (hsub : c ⊆ c') :
    ∀ fuel page,
      (scrapeLoop fetch county c df dt kws now1 page fuel).new_record_ids ⊆ c' →
      (scrapeLoop fetch county c' df dt kws now2 page fuel).records = [] := by
  intro fuel
  induction fuel with
  | zero => intro page _; simp [scrapeLoop]
  | succ n ih =>
    intro page hids
    cases hf : fetch page with
    | none => rw [scrapeLoop_succ_none county c' df dt kws now2 n hf]
    | some soup =>
      have hmap := parse_setNow soup county now1 now2
      by_cases hp1 : _parse_page soup county now1 = []
      · have hp2 : _parse_page soup county now2 = [] := by
          rw [hmap, hp1]; rfl
        rw [scrapeLoop_succ_nil c' df dt kws n hf hp2]
      · have hp2 : _parse_page soup county now2 ≠ [] := by
          rw [hmap]
          simpa using hp1
        rw [scrapeLoop_succ_cons c df dt kws n hf hp1] at hids
        rw [scrapeLoop_succ_cons c' df dt kws n hf hp2]
        simp only [Finset.union_subset_iff] at hids
        have hrest :
            (scrapeLoop fetch county c' df dt kws now2 (page + 1) n).records = [] :=
          ih (page + 1) hids.2
        have hfilter :
            _filter_records (_parse_page soup county now2) c' df dt kws = [] := by
          rw [filter_eq, hmap, List.filter_map, List.map_eq_nil_iff]
          rw [List.filter_eq_nil_iff]
          intro r hr
          rw [Function.comp_apply, keep_setNow]
          cases hkr : keepRecord c df dt kws r with
          | false => simp [keep_mono hsub hkr]
          | true =>
            have hmem : r ∈ (_parse_page soup county now1).filter
                (keepRecord c df dt kws) := List.mem_filter.mpr ⟨hr, hkr⟩
            rw [← filter_eq] at hmem
            have hid : generate_record_id r ∈ c' := by
              apply hids.1
              rw [List.mem_toFinset]
              exact List.mem_map_of_mem generate_record_id hmem
            simp [keep_false_of_mem hid]
        simp [hfilter, hrest]

lemma scrape_county_invalid {county : String} (fetch : Nat → Option Page)
    (mp : Nat) (df dt : Option Nat) (kws : Option (List String)) (skip : Bool)
    (stored : Finset String) (now : String) (h : pyLower county ∉ counties) :
    scrape_county fetch county mp df dt kws skip stored now = ⟨[], none, []⟩ := by
  simp [scrape_county, h]

lemma scrape_county_valid {county : String} (fetch : Nat → Option Page)
    (mp : Nat) (df dt : Option Nat) (kws : Option (List String)) (skip : Bool)
    (stored : Finset String) (now : String) (h : pyLower county ∈ counties) :
    scrape_county fetch county mp df dt kws skip stored now =
      ⟨(scrapeLoop fetch county (if skip then stored else ∅) df dt kws now 1 mp).records,
        (if skip ∧ (scrapeLoop fetch county (if skip then stored else ∅) df dt kws
            now 1 mp).new_record_ids ≠ ∅ then
          some ((if skip then stored else ∅) ∪
            (scrapeLoop fetch county (if skip then stored else ∅) df dt kws
              now 1 mp).new_record_ids)
        else none),
        (scrapeLoop fetch county (if skip then stored else ∅) df dt kws now 1 mp).fetched⟩ := by
  simp [scrape_county, h]

lemma lookup_map_pair {c : String} {F F' : String → List Record}
    (h : F c = F' c) :
    ∀ l : List String,
      (l.map fun cn => (cn, F cn)).lookup c = (l.map fun cn => (cn, F' cn)).lookup c := by
  intro l
  induction l with
  | nil => rfl
  | cons a t ih =>
    simp only [List.map_cons, List.lookup]
    by_cases hca : c = a
    · subst hca
      simp [h]
    · have : (c == a) = false := beq_false_of_ne hca
      simp [this, ih]

/-! ### Fixtures (concrete inputs used by witnesses and counterexamples) -/

/-- A record with every field empty. -/
def blankRecord : Record :=
  ⟨"", "", "", "", "", "", "", "", "", "", "", "", "", "", ""⟩

/-- Record whose charges mention theft (spec example, kept). -/
def theftRecord : Record :=
  { blankRecord with name := "A", charges := "Petit Theft, Resisting" }

/-- Record whose charges do not mention theft (spec example, dropped). -/
def speedingRecord : Record :=
  { blankRecord with name := "B", charges := "Speeding" }

/-- Record with an empty charges field. -/
def noChargesRecord : Record :=
  { blankRecord with name := "N", charges := "" }

/-- Record with a parseable booking date (spec example). -/
def marchRecord : Record :=
  { blankRecord with name := "M", booking_date := "2024-03-01" }

/-- Record with an unparseable booking date (spec example). -/
def freeTextDateRecord : Record :=
  { blankRecord with name := "F", booking_date := "March 1st" }

/-- A record used to exhibit in-run duplicate fingerprints. -/
def dupRecord : Record :=
  { blankRecord with name := "Dup", booking_date := "2024-01-02" }

/-- A candidate block with a name and a booking date in its text. -/
def annEntry : Entry :=
  ⟨some "Ann Smith", none, "Booked 2024-01-02"⟩

/-- A page holding the single candidate `annEntry`. -/
def annPage : Page :=
  ⟨[annEntry], []⟩

/-- A source whose page 1 is `annPage` and whose page 2 errors out. -/
def annFetch : Nat → Option Page :=
  fun k => if k = 1 then some annPage else none

/-- The record `_extract_record_data` produces from `annEntry` at time t1. -/
def annRecord : Record :=
  ⟨"Nelson", "Ann Smith", "", "", "", "", "", "", "", "2024-01-02", "", "", "", "", "t1"⟩

/-- A candidate block carrying only a name. -/
def namedEntry (nm : String) : Entry :=
  ⟨some nm, none, ""⟩

/-- Page 1 of the end-to-end scenario: three valid candidates and one
nameless candidate. -/
def c8page1 : Page :=
  ⟨[namedEntry "Alice One", namedEntry "Bob Two", namedEntry "Cara Three",
    ⟨none, none, "stray block"⟩], []⟩

/-- Page 2 of the end-to-end scenario: no candidate blocks. -/
def c8page2 : Page :=
  ⟨[], []⟩

/-- The two-page source of the end-to-end scenario; pages past 2 would yield
records again if they were (wrongly) fetched. -/
def c8fetch : Nat → Option Page :=
  fun k => if k = 1 then some c8page1 else if k = 2 then some c8page2 else some c8page1

/-- The record parsed from a name-only candidate of the end-to-end source. -/
def c8rec (nm : String) : Record :=
  ⟨"Nelson", nm, "", "", "", "", "", "", "", "", "", "", "", "", "2024-05-01 09:00:00"⟩

/-- Fetch collaborator that fails on every page of every county. -/
def fetchNone : String → Nat → Option Page :=
  fun _ _ => none

/-- Fetch collaborator that differs from `fetchNone` on jefferson only. -/
def fetchMixed : String → Nat → Option Page :=
  fun c => if c = "jefferson" then (fun _ => some ⟨[], []⟩) else (fun _ => none)

/-- Source with content on page 1 and a transport error on page 2. -/
def fetchErr2 : Nat → Option Page :=
  fun k => if k = 1 then some annPage else none

/-- Decomposition of the fingerprint into per-field lowercased parts. -/
lemma genId_decomp (r : Record) :
    generate_record_id r =
      String.mk (((pyLower r.name).toList ++ ['_'] ++
        (pyLower r.booking_date).toList).map (fun c => if c = ' ' then '_' else c)) := by
  unfold generate_record_id pyLower
  congr 2
  show ((r.name ++ "_" ++ r.booking_date).data.map Char.toLower) = _
  rw [String.data_append, String.data_append, List.map_append, List.map_append]
  rfl

/-! ### Claim theorems -/

/-- Claim C3: `RecordParser` never emits a record with an empty name — every
record produced by `_parse_page` has a non-empty `name`, and a candidate
whose extracted name is empty makes `_extract_record_data` return `None`
(contributing nothing). -/
theorem C3_no_empty_name :
    ∀ (county now : String),
      (∀ (p : Page) (r : Record), r ∈ _parse_page p county now → r.name ≠ "") ∧
      (∀ e : Entry, entryName e = "" → _extract_record_data e county now = none) := by
  intro county now
  constructor
  · intro p r hr
    unfold _parse_page at hr
    rw [List.mem_filterMap] at hr
    obtain ⟨e, -, he⟩ := hr
    unfold _extract_record_data at he
    by_cases h : entryName e = ""
    · rw [if_pos h] at he
      exact absurd he (by simp)
    · rw [if_neg h] at he
      have hr' := Option.some.inj he
      subst hr'
      exact h
  · intro e h
    unfold _extract_record_data
    rw [if_pos h]

/-- Witness for C3 at a concrete page and candidate. -/
theorem C3_witness :
    annRecord.name ≠ "" ∧
    _extract_record_data ⟨none, none, "stray block"⟩ "nelson" "t1" = none :=
  ⟨(C3_no_empty_name "nelson" "t1").1 annPage annRecord (by decide),
   (C3_no_empty_name "nelson" "t1").2 ⟨none, none, "stray block"⟩ (by decide)⟩

/-- Claim C4 counterexample: with `chargeKeywords = ["theft"]`, a record
whose `charges` field is empty contains no keyword, yet `_filter_records`
keeps it — the code guards the keyword check with `record['charges']` being
truthy, so the claim "drops whenever no keyword appears" is false. -/
theorem C4_counterexample :
    containsSub (pyLower noChargesRecord.charges) (pyLower "theft") = false ∧
    _filter_records [noChargesRecord] ∅ none none (some ["theft"]) = [noChargesRecord] := by
  constructor
  · decide
  · decide

/-- Claim C4 (amended): for a non-empty keyword list, a record with
non-empty `charges` is dropped by the keyword check iff no keyword occurs
case-insensitively in `charges`; a record with empty `charges` bypasses the
keyword check; a record dropped by the keyword check is dropped by the
filter; and the two spec examples hold. -/
theorem C4_keyword_amended :
    (∀ (kws : List String) (r : Record), kws ≠ [] → r.charges ≠ "" →
      (kwDrop (some kws) r = true ↔
        (kws.any fun kw => containsSub (pyLower r.charges) (pyLower kw)) = false)) ∧
    (∀ (kws : List String) (r : Record), r.charges = "" →
      kwDrop (some kws) r = false) ∧
    (∀ (kws : Option (List String)) (r : Record) (c : Finset String)
      (df dt : Option Nat),
      kwDrop kws r = true → keepRecord c df dt kws r = false) ∧
    kwDrop (some ["theft"]) theftRecord = false ∧
    kwDrop (some ["theft"]) speedingRecord = true ∧
    _filter_records [theftRecord, speedingRecord] ∅ none none (some ["theft"])
      = [theftRecord] := by
  refine ⟨?_, ?_, ?_, by decide, by decide, by decide⟩
  · intro kws r hk hc
    show (if kws ≠ [] ∧ r.charges ≠ "" then
        !(kws.any fun kw => containsSub (pyLower r.charges) (pyLower kw))
      else false) = true ↔ _
    rw [if_pos ⟨hk, hc⟩]
    simp
  · intro kws r hc
    show (if kws ≠ [] ∧ r.charges ≠ "" then
        !(kws.any fun kw => containsSub (pyLower r.charges) (pyLower kw))
      else false) = false
    rw [if_neg (by simp [hc])]
  · intro kws r c df dt h
    simp [keepRecord, h]

/-- Witness for C4 (amended) at the spec's dropped example. -/
theorem C4_witness :
    kwDrop (some ["theft"]) speedingRecord = true ↔
      ((["theft"]).any fun kw =>
        containsSub (pyLower speedingRecord.charges) (pyLower kw)) = false :=
  C4_keyword_amended.1 ["theft"] speedingRecord (by decide) (by decide)

/-- Claim C5: the date filter drops a record iff its booking date parses
(under the four formats tried in order) to a value outside the inclusive
range; records with unparseable booking dates are never dropped on date
grounds; a record dropped by the date check is dropped by the filter; the
spec's concrete examples hold (including inclusive boundaries). -/
theorem C5_date_filter :
    (∀ (df dt : Option Nat) (r : Record) (bd : Nat),
      _parse_date r.booking_date = some bd →
      (dateDrop df dt r = true ↔
        (∃ f, df = some f ∧ bd < f) ∨ (∃ t, dt = some t ∧ t < bd))) ∧
    (∀ (df dt : Option Nat) (r : Record),
      _parse_date r.booking_date = none → dateDrop df dt r = false) ∧
    (∀ (df dt : Option Nat) (r : Record) (c : Finset String)
      (kws : Option (List String)),
      dateDrop df dt r = true → keepRecord c df dt kws r = false) ∧
    _parse_date "2024-03-01" = some 20240301 ∧
    _parse_date "March 1st" = none ∧
    dateDrop (some 20240201) (some 20240228) marchRecord = true ∧
    dateDrop (some 20240201) (some 20240228) freeTextDateRecord = false ∧
    dateDrop (some 20240301) (some 20240401) marchRecord = false ∧
    dateDrop (some 20240201) (some 20240301) marchRecord = false := by
  refine ⟨?_, ?_, ?_, by decide, by decide, by decide, by decide, by decide, by decide⟩
  · intro df dt r bd h
    unfold dateDrop
    rw [h]
    cases df with
    | none =>
      cases dt with
      | none => simp
      | some t => simp
    | some f =>
      cases dt with
      | none => simp
      | some t => simp
  · intro df dt r h
    unfold dateDrop
    rw [h]
    split <;> rfl
  · intro df dt r c kws h
    simp [keepRecord, h]

/-- Witness for C5 at the spec's dropped example. -/
theorem C5_witness :
    dateDrop (some 20240201) (some 20240228) marchRecord = true ↔
      (∃ f, (some 20240201 : Option Nat) = some f ∧ 20240301 < f) ∨
      (∃ t, (some 20240228 : Option Nat) = some t ∧ t < 20240301) :=
  C5_date_filter.1 (some 20240201) (some 20240228) marchRecord 20240301 (by decide)

/-- Claim C6 counterexample: the fingerprint is not whitespace-normalized —
two names differing only in the amount of internal whitespace fingerprint
differently (every space becomes one underscore, runs are not collapsed). -/
theorem C6_counterexample :
    generate_record_id { blankRecord with name := "John  Doe", booking_date := "2024-01-02" } ≠
      generate_record_id { blankRecord with name := "John Doe", booking_date := "2024-01-02" } := by
  decide

/-- Claim C6 (amended): the fingerprint is a deterministic function of only
`name` and `booking_date` (lower-cased, with each space turned into an
underscore); records whose two fields agree up to letter case fingerprint
equally; the spec's concrete example holds. -/
theorem C6_fingerprint_amended :
    (∀ r r' : Record, r.name = r'.name → r.booking_date = r'.booking_date →
      generate_record_id r = generate_record_id r') ∧
    (∀ r r' : Record, pyLower r.name = pyLower r'.name →
      pyLower r.booking_date = pyLower r'.booking_date →
      generate_record_id r = generate_record_id r') ∧
    generate_record_id { blankRecord with name := "John Doe", booking_date := "2024-01-02" } =
      generate_record_id { blankRecord with name := "john doe", booking_date := "2024-01-02" } := by
  refine ⟨?_, ?_, by decide⟩
  · intro r r' h1 h2
    unfold generate_record_id
    rw [h1, h2]
  · intro r r' h1 h2
    rw [genId_decomp r, genId_decomp r', h1, h2]

/-- Witness for C6 (amended) at a concrete case-insensitive pair. -/
theorem C6_witness :
    generate_record_id { blankRecord with name := "JOHN DOE", booking_date := "2024-01-02" } =
      generate_record_id { blankRecord with name := "john doe", booking_date := "2024-01-02" } :=
  C6_fingerprint_amended.2.1 _ _ (by decide) (by decide)

/-- Claim C7: `_filter_records` is pure: the loop leaves the cache component
of its state untouched, and its output is exactly the in-order sub-sequence
of the input records that pass all checks. -/
theorem C7_filter_pure :
    ∀ (records : List Record) (cache : Finset String) (df dt : Option Nat)
      (kws : Option (List String)),
      (_filter_records_go df dt kws records (cache, [])).1 = cache ∧
      _filter_records records cache df dt kws
        = records.filter (keepRecord cache df dt kws) ∧
      (_filter_records records cache df dt kws).Sublist records := by
  intro records cache df dt kws
  refine ⟨filter_go_fst df dt kws records (cache, []), filter_eq records cache df dt kws, ?_⟩
  rw [filter_eq]
  exact List.filter_sublist records

/-- Claim C10: the keep/drop decision is a pointwise function of the record,
the cache snapshot and the criteria (never of previously kept records), so a
fingerprint occurring twice among passing records is kept twice (the count
of a passing record is preserved by the filter); at the loop level every
page is filtered against the same initial cache snapshot. -/
theorem C10_cache_snapshot :
    ∀ (rs : List Record) (cache : Finset String) (df dt : Option Nat)
      (kws : Option (List String)) (r : Record) (fetch : Nat → Option Page)
      (county now : String) (fuel page : Nat),
      _filter_records rs cache df dt kws = rs.filter (keepRecord cache df dt kws) ∧
      (keepRecord cache df dt kws r = true →
        (_filter_records rs cache df dt kws).count r = rs.count r) ∧
      (scrapeLoop fetch county cache df dt kws now page fuel).records
        = ((scrapeLoop fetch county cache df dt kws now page fuel).fetched.filterMap
            (fun i => (fetch i).map
              (fun p => _filter_records (_parse_page p county now) cache df dt kws))).flatten := by
  intro rs cache df dt kws r fetch county now fuel page
  refine ⟨filter_eq rs cache df dt kws, ?_, loop_records_join fetch county cache df dt kws now fuel page⟩
  intro h
  rw [filter_eq]
  exact List.count_filter h

/-- Witness for C10: a duplicated passing record is kept at both positions. -/
theorem C10_witness :
    (_filter_records [dupRecord, dupRecord] ∅ none none none).count dupRecord
      = [dupRecord, dupRecord].count dupRecord :=
  (C10_cache_snapshot [dupRecord, dupRecord] ∅ none none none dupRecord
    (fun _ => none) "" "" 0 0).2.1 (by decide)

/-- Claim C1: with `skip_duplicates = true`, every record kept by a run has
its fingerprint in the cache state left behind by that run (the written cache
if a write happened, the untouched stored cache otherwise), and a second run
over the same static document set against that cache state returns zero
records. -/
theorem C1_idempotent :
    ∀ (fetch : Nat → Option Page) (county : String) (mp : Nat)
      (df dt : Option Nat) (kws : Option (List String))
      (stored : Finset String) (now1 now2 : String),
      (∀ r ∈ (scrape_county fetch county mp df dt kws true stored now1).records,
        generate_record_id r ∈
          ((scrape_county fetch county mp df dt kws true stored now1).save.getD stored)) ∧
      (scrape_county fetch county mp df dt kws true
        ((scrape_county fetch county mp df dt kws true stored now1).save.getD stored)
        now2).records = [] := by
  intro fetch county mp df dt kws stored now1 now2
  by_cases hreg : pyLower county ∈ counties
  · rw [scrape_county_valid fetch mp df dt kws true stored now1 hreg]
    have e : (if (true : Bool) then stored else (∅ : Finset String)) = stored := rfl
    rw [e]
    by_cases hne : (scrapeLoop fetch county stored df dt kws now1 1 mp).new_record_ids = ∅
    · rw [if_neg (by simp [hne])]
      constructor
      · intro r hr
        exact absurd (loop_rec_mem_ids hr) (by rw [hne]; exact Finset.not_mem_empty _)
      · rw [scrape_county_valid fetch mp df dt kws true _ now2 hreg]
        exact loop_run2_nil fetch county df dt kws now1 now2
          (Finset.Subset.refl stored) mp 1 (by rw [hne]; exact Finset.empty_subset stored)
    · rw [if_pos ⟨rfl, hne⟩]
      constructor
      · intro r hr
        exact Finset.mem_union_right stored (loop_rec_mem_ids hr)
      · rw [scrape_county_valid fetch mp df dt kws true _ now2 hreg]
        exact loop_run2_nil fetch county df dt kws now1 now2
          Finset.subset_union_left mp 1 Finset.subset_union_right
  · rw [scrape_county_invalid fetch mp df dt kws true stored now1 hreg,
        scrape_county_invalid fetch mp df dt kws true _ now2 hreg]
    constructor
    · intro r hr
      exact absurd hr (by simp)
    · rfl

/-- Witness for C1: a one-page source scraped twice. -/
theorem C1_witness :
    generate_record_id annRecord ∈
      ((scrape_county annFetch "nelson" 3 none none none true ∅ "t1").save.getD ∅) ∧
    (scrape_county annFetch "nelson" 3 none none none true
      ((scrape_county annFetch "nelson" 3 none none none true ∅ "t1").save.getD ∅)
      "t2").records = [] :=
  ⟨(C1_idempotent annFetch "nelson" 3 none none none ∅ "t1" "t2").1 annRecord (by decide),
   (C1_idempotent annFetch "nelson" 3 none none none ∅ "t1" "t2").2⟩

/-- Claim C2: whenever `scrape_county` writes the cache, the written set is
the union of the set loaded at the start of the run and the fingerprints of
the run's kept records (so no stored fingerprint is lost), and a write only
happens with `skip_duplicates = true` and at least one new fingerprint. -/
theorem C2_cache_grows :
    ∀ (fetch : Nat → Option Page) (county : String) (mp : Nat)
      (df dt : Option Nat) (kws : Option (List String)) (skip : Bool)
      (stored : Finset String) (now : String) (s : Finset String),
      (scrape_county fetch county mp df dt kws skip stored now).save = some s →
      skip = true ∧
      (scrape_county fetch county mp df dt kws skip stored now).records ≠ [] ∧
      s = stored ∪
        (((scrape_county fetch county mp df dt kws skip stored now).records).map
          generate_record_id).toFinset ∧
      stored ⊆ s := by
  intro fetch county mp df dt kws skip stored now s h
  by_cases hreg : pyLower county ∈ counties
  · rw [scrape_county_valid fetch mp df dt kws skip stored now hreg] at h ⊢
    by_cases hcond : skip = true ∧
        (scrapeLoop fetch county (if skip then stored else ∅) df dt kws
          now 1 mp).new_record_ids ≠ ∅
    · rw [if_pos hcond] at h
      have hskip := hcond.1
      subst hskip
      have e : (if (true : Bool) then stored else (∅ : Finset String)) = stored := rfl
      rw [e] at h hcond ⊢
      have hs : stored ∪
          (scrapeLoop fetch county stored df dt kws now 1 mp).new_record_ids = s :=
        Option.some.inj h
      have hids := loop_ids_spec fetch county stored df dt kws now mp 1
      refine ⟨rfl, ?_, ?_, ?_⟩
      · intro hnil
        apply hcond.2
        rw [hids]
        have hnil' : (scrapeLoop fetch county stored df dt kws now 1 mp).records = [] :=
          hnil
        rw [hnil']
        simp
      · rw [← hs, hids]
      · rw [← hs]
        exact Finset.subset_union_left
    · rw [if_neg hcond] at h
      exact absurd h (by simp)
  · rw [scrape_county_invalid fetch mp df dt kws skip stored now hreg] at h
    exact absurd h (by simp)

/-- Witness for C2: a run producing one new fingerprint. -/
theorem C2_witness :
    true = true ∧
    (scrape_county annFetch "nelson" 3 none none none true ∅ "t1").records ≠ [] ∧
    ({"ann_smith_2024-01-02"} : Finset String) = ∅ ∪
      (((scrape_county annFetch "nelson" 3 none none none true ∅ "t1").records).map
        generate_record_id).toFinset ∧
    (∅ : Finset String) ⊆ {"ann_smith_2024-01-02"} :=
  C2_cache_grows annFetch "nelson" 3 none none none true ∅ "t1"
    {"ann_smith_2024-01-02"} (by decide)

/-- Claim C8: on the two-page source whose page 1 has three valid candidates
and one nameless candidate and whose page 2 is empty, `scrape_county` (with
`max_pages = 5`, empty cache, no criteria) returns exactly the three valid
records, and exactly pages 1 and 2 are fetched — no page after the first
zero-record page. -/
theorem C8_end_to_end :
    (scrape_county c8fetch "nelson" 5 none none none true ∅
      "2024-05-01 09:00:00").records
      = [c8rec "Alice One", c8rec "Bob Two", c8rec "Cara Three"] ∧
    (scrape_county c8fetch "nelson" 5 none none none true ∅
      "2024-05-01 09:00:00").fetched = [1, 2] := by
  constructor
  · decide
  · decide

/-- Claim C9 counterexample: a transport error is not surfaced to the
caller — the outcome of a source whose very first fetch fails is
indistinguishable from that of a source that cleanly reports an empty
listing (same records, same absent cache write, same fetch trace). -/
theorem C9_counterexample :
    (scrape_county (fun _ => none) "nelson" 5 none none none true ∅ "t").records = [] ∧
    (scrape_county (fun _ => none) "nelson" 5 none none none true ∅ "t").save = none ∧
    scrape_county (fun _ => none) "nelson" 5 none none none true ∅ "t"
      = scrape_county (fun _ => some ⟨[], []⟩) "nelson" 5 none none none true ∅ "t" := by
  refine ⟨by decide, by decide, by decide⟩

/-- Claim C9 (amended): pages are fetched once each, in order, starting at 1
(no retry); after a fetch failure on page `n` no later page is requested;
the returned records are exactly the filtered parses of the successfully
fetched pages (records gathered before the failure are returned, the error
itself is only logged, not surfaced); and one county's results in a
multi-county run depend only on that county's own fetch collaborator. -/
theorem C9_transport_error :
    ∀ (fetch : Nat → Option Page) (county : String) (mp : Nat) (df dt : Option Nat)
      (kws : Option (List String)) (skip : Bool) (stored : Finset String)
      (now : String) (n : Nat),
      (∃ k ≤ mp, (scrape_county fetch county mp df dt kws skip stored now).fetched
        = List.range' 1 k) ∧
      (1 ≤ n → fetch n = none →
        ∀ m ∈ (scrape_county fetch county mp df dt kws skip stored now).fetched, m ≤ n) ∧
      ((scrape_county fetch county mp df dt kws skip stored now).records
        = ((scrape_county fetch county mp df dt kws skip stored now).fetched.filterMap
            (fun i => (fetch i).map (fun p => _filter_records (_parse_page p county now)
              (if skip then stored else ∅) df dt kws))).flatten) ∧
      (∀ (fetchOf fetchOf' : String → Nat → Option Page)
        (cacheOf : String → Finset String) (c : String),
        fetchOf c = fetchOf' c →
        (scrape_all_counties fetchOf cacheOf mp df dt kws skip now).lookup c
          = (scrape_all_counties fetchOf' cacheOf mp df dt kws skip now).lookup c) := by
  intro fetch county mp df dt kws skip stored now n
  refine ⟨?_, ?_, ?_, ?_⟩
  · by_cases hreg : pyLower county ∈ counties
    · rw [scrape_county_valid fetch mp df dt kws skip stored now hreg]
      exact loop_fetched_range fetch county (if skip then stored else ∅) df dt kws now mp 1
    · rw [scrape_county_invalid fetch mp df dt kws skip stored now hreg]
      exact ⟨0, Nat.zero_le mp, rfl⟩
  · intro h1 hn m hm
    by_cases hreg : pyLower county ∈ counties
    · rw [scrape_county_valid fetch mp df dt kws skip stored now hreg] at hm
      exact loop_fetched_le county (if skip then stored else ∅) df dt kws now hn mp 1 h1 m hm
    · rw [scrape_county_invalid fetch mp df dt kws skip stored now hreg] at hm
      exact absurd hm (by simp)
  · by_cases hreg : pyLower county ∈ counties
    · rw [scrape_county_valid fetch mp df dt kws skip stored now hreg]
      exact loop_records_join fetch county (if skip then stored else ∅) df dt kws now mp 1
    · rw [scrape_county_invalid fetch mp df dt kws skip stored now hreg]
      rfl
  · intro fetchOf fetchOf' cacheOf c hc
    unfold scrape_all_counties
    exact lookup_map_pair (by rw [hc]) counties

/-- Witness for C9 (amended): the error page of a concrete failing source
bounds its own fetch trace, and a county's multi-run results are unchanged
when only another county's collaborator differs. -/
theorem C9_witness :
    (2 : Nat) ≤ 2 ∧
    (scrape_all_counties fetchNone (fun _ => ∅) 3 none none none true "t").lookup "nelson"
      = (scrape_all_counties fetchMixed (fun _ => ∅) 3 none none none true "t").lookup "nelson" :=
  ⟨(C9_transport_error fetchErr2 "nelson" 3 none none none true ∅ "t" 2).2.1
      (by decide) (by decide) 2 (by decide),
   (C9_transport_error fetchErr2 "nelson" 3 none none none true ∅ "t" 2).2.2.2
      fetchNone fetchMixed (fun _ => ∅) "nelson" rfl⟩

end Scraper
